import Mathlib

set_option maxRecDepth 100000

/-!
# Verification of the FinancasBob import core (`FinancasBob_main.py`)

Shallow embedding of the transaction-import pipeline: the MD5 content hash,
the keyword classifier (`CategorizadorIA`), the bounded-section row allocator
(`_encontrar_proxima_linha_vazia` / `_inserir_generico`), the deduplication
ledger (`_get_transacoes_existentes` / `_atualizar_historico`) and the
orchestrator (`importar_transacoes`).

The Google-Sheets collaborator is modelled as an explicit spreadsheet state
(`Planilha`) threaded through every operation, with boolean transport-failure
flags standing for the points where a remote call can raise.  Machine
integers of the MD5 algorithm are modelled as `Nat` with explicit `% 2^32`.
-/

namespace FinancasBob

/-! ## MD5 (model of Python's `hashlib.md5(...).hexdigest()`)

`_gerar_hash_transacao` calls `hashlib.md5` on the UTF-8 encoding of the
joined text.  We implement the RFC 1321 algorithm over `Nat`, reducing
modulo `2^32` wherever the reference algorithm uses 32-bit words. -/

namespace MD5

def M32 : Nat := 4294967296

def mask32 : Nat := 4294967295

def add32 (a b : Nat) : Nat := (a + b) % M32

def not32 (a : Nat) : Nat := Nat.xor a mask32

def rotl32 (x s : Nat) : Nat := ((x <<< s) % M32) ||| (x >>> (32 - s))

/-- The 64 sine-derived constants `K[i] = floor(2^32 * |sin(i+1)|)` of RFC 1321. -/
def K : List Nat :=
  [0xd76aa478, 0xe8c7b756, 0x242070db, 0xc1bdceee,
   0xf57c0faf, 0x4787c62a, 0xa8304613, 0xfd469501,
   0x698098d8, 0x8b44f7af, 0xffff5bb1, 0x895cd7be,
   0x6b901122, 0xfd987193, 0xa679438e, 0x49b40821,
   0xf61e2562, 0xc040b340, 0x265e5a51, 0xe9b6c7aa,
   0xd62f105d, 0x02441453, 0xd8a1e681, 0xe7d3fbc8,
   0x21e1cde6, 0xc33707d6, 0xf4d50d87, 0x455a14ed,
   0xa9e3e905, 0xfcefa3f8, 0x676f02d9, 0x8d2a4c8a,
   0xfffa3942, 0x8771f681, 0x6d9d6122, 0xfde5380c,
   0xa4beea44, 0x4bdecfa9, 0xf6bb4b60, 0xbebfbc70,
   0x289b7ec6, 0xeaa127fa, 0xd4ef3085, 0x04881d05,
   0xd9d4d039, 0xe6db99e5, 0x1fa27cf8, 0xc4ac5665,
   0xf4292244, 0x432aff97, 0xab9423a7, 0xfc93a039,
   0x655b59c3, 0x8f0ccc92, 0xffeff47d, 0x85845dd1,
   0x6fa87e4f, 0xfe2ce6e0, 0xa3014314, 0x4e0811a1,
   0xf7537e82, 0xbd3af235, 0x2ad7d2bb, 0xeb86d391]

/-- Per-round left-rotation amounts. -/
def S : List Nat :=
  [7, 12, 17, 22, 7, 12, 17, 22, 7, 12, 17, 22, 7, 12, 17, 22,
   5, 9, 14, 20, 5, 9, 14, 20, 5, 9, 14, 20, 5, 9, 14, 20,
   4, 11, 16, 23, 4, 11, 16, 23, 4, 11, 16, 23, 4, 11, 16, 23,
   6, 10, 15, 21, 6, 10, 15, 21, 6, 10, 15, 21, 6, 10, 15, 21]

/-- Round function of step `i` applied to words `b c d`. -/
def rodada (i b c d : Nat) : Nat :=
  if i < 16 then (b &&& c) ||| (not32 b &&& d)
  else if i < 32 then (d &&& b) ||| (not32 d &&& c)
  else if i < 48 then Nat.xor (Nat.xor b c) d
  else Nat.xor c (b ||| not32 d)

/-- Message-word index used at step `i`. -/
def gIdx (i : Nat) : Nat :=
  if i < 16 then i
  else if i < 32 then (5 * i + 1) % 16
  else if i < 48 then (3 * i + 5) % 16
  else (7 * i) % 16

/-- One of the 64 steps of a block: state is `(a, b, c, d)`. -/
def passo (w : List Nat) (st : Nat × Nat × Nat × Nat) (i : Nat) : Nat × Nat × Nat × Nat :=
  match st with
  | (a, b, c, d) =>
    let f := (rodada i b c d + a + K.getD i 0 + w.getD (gIdx i) 0) % M32
    (d, add32 b (rotl32 f (S.getD i 0)), b, c)

/-- Decode a 64-byte chunk into 16 little-endian 32-bit words. -/
def palavras (chunk : List Nat) : List Nat :=
  (List.range 16).map fun j =>
    chunk.getD (4 * j) 0 + 256 * chunk.getD (4 * j + 1) 0 +
      65536 * chunk.getD (4 * j + 2) 0 + 16777216 * chunk.getD (4 * j + 3) 0

/-- Process one 64-byte chunk, updating the running state. -/
def bloco (st : Nat × Nat × Nat × Nat) (chunk : List Nat) : Nat × Nat × Nat × Nat :=
  match st with
  | (a0, b0, c0, d0) =>
    let w := palavras chunk
    match (List.range 64).foldl (passo w) (a0, b0, c0, d0) with
    | (a, b, c, d) => (add32 a0 a, add32 b0 b, add32 c0 c, add32 d0 d)

/-- RFC 1321 padding: `0x80`, zeros to 56 mod 64, then the 64-bit
little-endian bit length. -/
def pad (msg : List Nat) : List Nat :=
  let n := msg.length
  let zeros := (119 - n % 64) % 64
  msg ++ 128 :: List.replicate zeros 0 ++
    (List.range 8).map fun i => ((8 * n) >>> (8 * i)) % 256

/-- Little-endian bytes of a 32-bit word. -/
def bytesPalavra (w : Nat) : List Nat :=
  [w % 256, (w >>> 8) % 256, (w >>> 16) % 256, (w >>> 24) % 256]

/-- The digest bytes of a final state `(a, b, c, d)`. -/
def digestBytes (st : Nat × Nat × Nat × Nat) : List Nat :=
  bytesPalavra st.1 ++ bytesPalavra st.2.1 ++ bytesPalavra st.2.2.1 ++ bytesPalavra st.2.2.2

/-- The 16 digest bytes of a byte message. -/
def md5Bytes (msg : List Nat) : List Nat :=
  let padded := pad msg
  let chunks := (List.range (padded.length / 64)).map fun i => (padded.drop (64 * i)).take 64
  digestBytes (chunks.foldl bloco (0x67452301, 0xefcdab89, 0x98badcfe, 0x10325476))

def hexDigito (n : Nat) : Char :=
  if n < 10 then Char.ofNat (48 + n) else Char.ofNat (87 + n)

def hexByte (b : Nat) : List Char :=
  [hexDigito (b / 16), hexDigito (b % 16)]

/-- UTF-8 encoding of one character (model of Python's `str.encode()`). -/
def utf8Char (c : Char) : List Nat :=
  let n := c.toNat
  if n < 128 then [n]
  else if n < 2048 then [192 + n / 64, 128 + n % 64]
  else if n < 65536 then [224 + n / 4096, 128 + (n / 64) % 64, 128 + n % 64]
  else [240 + n / 262144, 128 + (n / 4096) % 64, 128 + (n / 64) % 64, 128 + n % 64]

def utf8Bytes (s : String) : List Nat :=
  (s.data.map utf8Char).flatten

/-- `hashlib.md5(texto.encode()).hexdigest()`: lowercase hex of the 16 digest
bytes of the UTF-8 encoding. -/
def md5Hex (s : String) : String :=
  ⟨((md5Bytes (utf8Bytes s)).map hexByte).flatten⟩

end MD5

/-! ## String primitives used by the Python source

Python's `str.lower`, substring test (`in`), `str.replace(x, '')` and
slicing `[:50]` are modelled on the character list of the string. -/

/-- `descricao.lower()` (ASCII case folding, as used by every keyword here). -/
def minusculas (s : String) : String := ⟨s.data.map Char.toLower⟩

/-- `sub in l` on character lists: some suffix of `l` starts with `sub`. -/
def contemLista (sub : List Char) : List Char → Bool
  | [] => sub.isEmpty
  | c :: resto => sub.isPrefixOf (c :: resto) || contemLista sub resto

/-- Python's substring test `sub in s`. -/
def contem (sub s : String) : Bool := contemLista sub.data s.data

def semChar (c : Char) (l : List Char) : List Char := l.filter (fun a => a != c)

/-- `.replace(' ', '').replace('.', '').replace('-', '')`. -/
def limpar (s : String) : String := ⟨semChar '-' (semChar '.' (semChar ' ' s.data))⟩

/-- `str(x)[:50]`. -/
def truncar50 (s : String) : String := ⟨s.data.take 50⟩

/-! ## Decimal rendering of amounts

The CSV reader coerces `Valor` to a float and the source interpolates it
with `f"...{row['Valor']}..."`.  Amounts are modelled exactly as an integer
number of centavos (`Int`); `strValor` mirrors CPython's shortest-roundtrip
float `repr` on such two-decimal values: sign, integer part, a dot, then the
fractional part with a trailing zero digit dropped but at least one digit
kept (`-23.50 ↦ "-23.5"`, `-23.00 ↦ "-23.0"`, `23.05 ↦ "23.05"`). -/

def digAux : Nat → Nat → List Nat
  | 0, _ => []
  | fuel + 1, n => if n = 0 then [] else n % 10 :: digAux fuel (n / 10)

/-- Little-endian decimal digits of `n` (empty for `0`). -/
def digitos (n : Nat) : List Nat := digAux n n

def digChar (d : Nat) : Char := Char.ofNat (48 + d)

/-- Python's `str` on a natural number. -/
def natStr (n : Nat) : String :=
  if n = 0 then "0" else ⟨(digitos n).reverse.map digChar⟩

/-- Fractional part (in centavos, `f < 100`) as rendered by float `repr`. -/
def fracStr (f : Nat) : String :=
  if f % 10 = 0 then natStr (f / 10)
  else if f < 10 then "0" ++ natStr f
  else natStr f

/-- Decimal text of an amount of `c` centavos. -/
def strValor (c : Int) : String :=
  (if c < 0 then "-" else "") ++ natStr (c.natAbs / 100) ++ "." ++ fracStr (c.natAbs % 100)

/-! ## Data model -/

/-- One parsed bank-statement row (`Data`, `Descricao`, `Valor` columns of
the dataframe handed to `importar_transacoes`); `Valor` in centavos. -/
structure Transacao where
  Data : String
  Descricao : String
  Valor : Int
deriving DecidableEq, Repr

/-! `Config`: the static spreadsheet coordinates. -/

namespace Config

def ENTRADAS_INICIO_LINHA : Nat := 10

def ENTRADAS_FIM_LINHA : Nat := 19

def ENTRADAS_COL_DESCRICAO : String := "B"

def VARIAVEIS_INICIO_LINHA : Nat := 25

def VARIAVEIS_FIM_LINHA : Nat := 51

def VARIAVEIS_COL_DESCRICAO : String := "B"

def FIXOS_INICIO_LINHA : Nat := 17

def FIXOS_FIM_LINHA : Nat := 26

def FIXOS_COL_DESCRICAO : String := "H"

end Config

/-! ## `CategorizadorIA` -/

/-- Category → keyword table, in the declared (Python 3.7+ dict) order. -/
def MAPEAMENTO : List (String × List String) :=
  [("Transporte", ["uber", "99", "taxi", "gasolina", "posto", "ipva", "estacionamento", "onibus", "metro"]),
   ("Delivery", ["ifood", "rappi", "uber eats", "delivery"]),
   ("Lazer", ["cinema", "netflix", "spotify", "prime", "disney", "restaurante", "bar", "show"]),
   ("Saude", ["medico", "hospital", "laboratorio", "consulta", "exame", "clinica"]),
   ("Farmacia", ["farmacia", "droga", "drogaria", "remedio"]),
   ("Casa", ["aluguel", "condominio", "luz", "agua", "internet", "gas", "energia"]),
   ("Supermercado", ["supermercado", "mercado", "atacadao", "pao de acucar", "assai", "padaria"]),
   ("Roupa", ["roupa", "sapato", "loja", "zara", "renner", "nike", "adidas"]),
   ("Faculdade", ["faculdade", "universidade", "curso", "mensalidade", "escola"]),
   ("Beleza", ["salao", "cabelo", "manicure", "barbeiro", "estetica"]),
   ("Assinaturas", ["assinatura", "recorrente", "tim", "vivo", "claro", "oi"]),
   ("Presentes", ["presente", "gift"])]

def GASTOS_FIXOS_KEYWORDS : List String :=
  ["aluguel", "condominio", "luz", "agua", "internet", "gas", "energia",
   "tim", "vivo", "claro", "oi", "netflix", "spotify", "prime", "disney",
   "faculdade", "universidade", "mensalidade", "plano", "assinatura", "academia"]

/-- `CategorizadorIA.categorizar(descricao, valor)` →
`(categoria, tipo, eh_fixo)`. -/
def categorizar (descricao : String) (valor : Int) : String × String × Bool :=
  let desc := minusculas descricao
  if decide (0 < valor) || contem "recebida" desc || contem "salario" desc then
    ("Entrada", "Receita", false)
  else
    let desc_limpo := limpar desc
    let eh_fixo := GASTOS_FIXOS_KEYWORDS.any fun palavra => contem (limpar palavra) desc_limpo
    match MAPEAMENTO.find? (fun par => par.2.any fun palavra => contem palavra desc) with
    | some par => (par.1, "Despesa", eh_fixo)
    | none => ("Necessidade", "Despesa", eh_fixo)

/-- `CategorizadorIA.identificar_forma_pagamento(descricao)`. -/
def identificar_forma_pagamento (descricao : String) : String :=
  let desc := minusculas descricao
  if contem "pix" desc then "Pix"
  else if contem "cartao" desc || contem "credito" desc then "Cartao"
  else "Pix"

/-! ## The spreadsheet collaborator

`IntegradorSheets` talks to two worksheets: the month tab (`self.aba_mes`)
and the `Histórico` ledger tab.  The month tab is a cell store addressed by
(column letter, row); writes prepend to an association list whose first
match wins.  The ledger tab is a row list (`none` while the worksheet does
not exist).  Remote calls can raise; each distinct call site that the
claims exercise gets a boolean failure flag in the state, `true` meaning
the transport raises at that call. -/

/-- Errors surfaced by the gspread collaborator. -/
inductive GErr where
  | worksheetNotFound
  | transport
deriving DecidableEq, Repr

structure Planilha where
  mes : List ((String × Nat) × String)
  hist : Option (List (List String))
  failHistOpen : Bool
  failHistRead : Bool
  failHistWrite : Bool
  failMesRead : Bool
  failMesWrite : Bool
  agora : String
deriving DecidableEq, Repr

/-- Result of a stateful operation: Python exceptions propagate with the
store in whatever condition the mutations so far left it (no rollback). -/
inductive SRes (α : Type) where
  | ok (a : α) (s : Planilha)
  | err (e : GErr) (s : Planilha)
deriving DecidableEq, Repr

/-- Did the operation raise? -/
def ehErro {α : Type} : SRes α → Bool
  | .ok _ _ => false
  | .err _ _ => true

/-- Final state of an operation, raised or not. -/
def estadoFinal {α : Type} : SRes α → Planilha
  | .ok _ s => s
  | .err _ s => s

/-- Value of the month-tab cell at (`col`, `lin`); `""` when never written. -/
def lookupMes (s : Planilha) (col : String) (lin : Nat) : String :=
  match s.mes.find? (fun par => par.1.1 == col && par.1.2 == lin) with
  | some par => par.2
  | none => ""

/-- `self.aba_mes.update([[v]], f'{col}{lin}')`. -/
def updateMesCell (col : String) (lin : Nat) (v : String) (s : Planilha) : SRes Unit :=
  if s.failMesWrite then .err .transport s
  else .ok () { s with mes := ((col, lin), v) :: s.mes }

/-- `self.aba_mes.get(f'{col}{inicio}:{col}{fim}', ...)`.  Modelled
collaborator: the call returns one entry per requested row, an empty cell
giving an empty row list. -/
def getMesRange (col : String) (inicio fim : Nat) (s : Planilha) : SRes (List (List String)) :=
  if s.failMesRead then .err .transport s
  else .ok ((List.range' inicio (fim + 1 - inicio)).map fun lin =>
    if lookupMes s col lin = "" then [] else [lookupMes s col lin]) s

/-- `self.planilha.worksheet(Config.ABA_HISTORICO)`. -/
def abrirHistorico (s : Planilha) : SRes (List (List String)) :=
  if s.failHistOpen then .err .transport s
  else
    match s.hist with
    | none => .err .worksheetNotFound s
    | some rows => .ok rows s

/-- The header written by `_criar_aba_historico`. -/
def cabecalhoHistorico : List String :=
  ["Hash", "Data", "Descricao", "Valor", "Data_Importacao"]

/-- `_criar_aba_historico`: add the worksheet and write the header row. -/
def criar_aba_historico (s : Planilha) : Planilha :=
  { s with hist := some [cabecalhoHistorico] }

/-! ## `IntegradorSheets`: hash, ledger query, allocator, inserts, history -/

/-- `_gerar_hash_transacao`: MD5 of `f"{Data}|{Descricao}|{Valor}"`. -/
def texto_hash (r : Transacao) : String :=
  r.Data ++ "|" ++ r.Descricao ++ "|" ++ strValor r.Valor

def gerar_hash_transacao (r : Transacao) : String :=
  MD5.md5Hex (texto_hash r)

/-- The `Hash` column extracted by `get_as_dataframe` + `dropna`: `none`
when the table has no rows or its header row has no `Hash` column. -/
def hashColumn (rows : List (List String)) : Option (List String) :=
  match rows with
  | [] => none
  | header :: corpo =>
    match header.findIdx? (fun h => h == "Hash") with
    | none => none
    | some i => some ((corpo.map fun row => row.getD i "").filter (fun h => h ≠ ""))

/-- `_get_transacoes_existentes`: read the `Hash` column of `Histórico`;
on `WorksheetNotFound` create the tab and return the empty set; other
exceptions propagate; a readable table without a `Hash` column yields the
empty set. -/
def get_transacoes_existentes (s : Planilha) : SRes (List String) :=
  match abrirHistorico s with
  | .ok rows s1 =>
    if s1.failHistRead then .err .transport s1
    else
      match hashColumn rows with
      | none => .ok [] s1
      | some hs => .ok hs s1
  | .err .worksheetNotFound s1 => .ok [] (criar_aba_historico s1)
  | .err e s1 => .err e s1

/-- The scan inside `_encontrar_proxima_linha_vazia`: first row whose probe
cell is empty, `none` after walking every returned row. -/
def buscaLinhaVazia : List (List String) → Nat → Option Nat
  | [], _ => none
  | lv :: resto, linha =>
    match lv with
    | [] => some linha
    | v :: _ => if v = "" then some linha else buscaLinhaVazia resto (linha + 1)

/-- `_encontrar_proxima_linha_vazia(coluna, inicio, fim)`. -/
def encontrar_proxima_linha_vazia (col : String) (inicio fim : Nat) (s : Planilha) :
    SRes (Option Nat) :=
  match getMesRange col inicio fim s with
  | .err e s1 => .err e s1
  | .ok valores s1 =>
    if valores.isEmpty then .ok (some inicio) s1
    else .ok (buscaLinhaVazia valores inicio) s1

/-- The `for _, row in df.iterrows()` write loop of `_inserir_generico`:
breaks as soon as the row counter passes `fim`. -/
def inserirLoop (col : String) (fim : Nat) : List Transacao → Nat → Planilha → SRes Unit
  | [], _, s => .ok () s
  | r :: resto, linha, s =>
    if fim < linha then .ok () s
    else
      match updateMesCell col linha (truncar50 r.Descricao) s with
      | .err e s1 => .err e s1
      | .ok _ s1 => inserirLoop col fim resto (linha + 1) s1

/-- `_inserir_generico(df, col_desc, inicio, fim)`; `if linha and linha <= fim`
models Python truthiness (`None` and `0` are falsy). -/
def inserir_generico (df : List Transacao) (col : String) (inicio fim : Nat) (s : Planilha) :
    SRes Unit :=
  match encontrar_proxima_linha_vazia col inicio fim s with
  | .err e s1 => .err e s1
  | .ok olinha s1 =>
    match olinha with
    | some linha =>
      if linha ≠ 0 ∧ linha ≤ fim then inserirLoop col fim df linha s1 else .ok () s1
    | none => .ok () s1

/-- The classification columns `_processar_insercoes` adds to the frame. -/
structure Classificada where
  base : Transacao
  categoria : String
  tipo : String
  ehFixo : Bool
  forma : String
deriving DecidableEq, Repr

def classificar (r : Transacao) : Classificada :=
  let c := categorizar r.Descricao r.Valor
  { base := r
    categoria := c.1
    tipo := c.2.1
    ehFixo := c.2.2
    forma := identificar_forma_pagamento r.Descricao }

/-- `_processar_insercoes`: classify, then route the three partitions to
`_inserir_entradas` / `_inserir_gastos_fixos` / `_inserir_gastos_variaveis`. -/
def processar_insercoes (df : List Classificada) (s : Planilha) : SRes Unit :=
  match inserir_generico ((df.filter fun r => r.tipo == "Receita").map (·.base))
      Config.ENTRADAS_COL_DESCRICAO Config.ENTRADAS_INICIO_LINHA Config.ENTRADAS_FIM_LINHA s with
  | .err e s1 => .err e s1
  | .ok _ s1 =>
    match inserir_generico ((df.filter fun r => r.tipo == "Despesa" && r.ehFixo).map (·.base))
        Config.FIXOS_COL_DESCRICAO Config.FIXOS_INICIO_LINHA Config.FIXOS_FIM_LINHA s1 with
    | .err e s2 => .err e s2
    | .ok _ s2 =>
      inserir_generico ((df.filter fun r => r.tipo == "Despesa" && !r.ehFixo).map (·.base))
        Config.VARIAVEIS_COL_DESCRICAO Config.VARIAVEIS_INICIO_LINHA Config.VARIAVEIS_FIM_LINHA s2

/-- One ledger row `[Hash, Data, Descricao, Valor, Data_Importacao]`. -/
def linhaHistorico (agora : String) (r : Transacao) : List String :=
  [gerar_hash_transacao r, r.Data, r.Descricao, strValor r.Valor, agora]

/-- `_atualizar_historico(df)`: append one row per record after the current
last row.  The whole body sits in a `try/except` that only logs, so no
exception ever escapes — the state at the point of failure is returned. -/
def atualizar_historico (df : List Transacao) (s : Planilha) : Planilha :=
  match abrirHistorico s with
  | .err _ s1 => s1
  | .ok rows s1 =>
    if s1.failHistRead then s1
    else if s1.failHistWrite then s1
    else { s1 with hist := some (rows ++ df.map (linhaHistorico s1.agora)) }

/-- Outcome reported by `importar_transacoes`. -/
inductive ResultadoImport where
  | nenhumaNova
  | importadas (n : Nat)
deriving DecidableEq, Repr

/-- The records of `df` surviving deduplication against `existentes`
(`df[~df['Hash'].isin(hashes_existentes)]`). -/
def sobreviventes (df : List Transacao) (existentes : List String) : List Transacao :=
  df.filter fun r => !(existentes.contains (gerar_hash_transacao r))

/-- `importar_transacoes(df)`: hash, deduplicate, stop if nothing is new,
else insert into the sections and append to the history. -/
def importar_transacoes (df : List Transacao) (s : Planilha) : SRes ResultadoImport :=
  match get_transacoes_existentes s with
  | .err e s1 => .err e s1
  | .ok existentes s1 =>
    let novas := sobreviventes df existentes
    if novas.isEmpty then .ok .nenhumaNova s1
    else
      match processar_insercoes (novas.map classificar) s1 with
      | .err e s2 => .err e s2
      | .ok _ s2 => .ok (.importadas novas.length) (atualizar_historico novas s2)

/-- The hashes the Ledger currently lists (its `Hash` column). -/
def ledgerHashes (s : Planilha) : List String :=
  match s.hist with
  | none => []
  | some rows =>
    match hashColumn rows with
    | none => []
    | some hs => hs

/-! ## Lemmas about the string primitives -/

theorem contemLista_iff (sub : List Char) (l : List Char) :
    contemLista sub l = true ↔ sub <:+: l := by
  induction l with
  | nil =>
    simp only [contemLista, List.isEmpty_iff, List.infix_nil]
  | cons c resto ih =>
    simp only [contemLista, Bool.or_eq_true, List.isPrefixOf_iff_prefix, ih,
      List.infix_cons_iff]

theorem contem_iff (sub s : String) : contem sub s = true ↔ sub.data <:+: s.data :=
  contemLista_iff sub.data s.data

theorem infix_filter {l₁ l₂ : List Char} (p : Char → Bool) (h : l₁ <:+: l₂)
    (hk : l₁.filter p = l₁) : l₁ <:+: l₂.filter p := by
  obtain ⟨t, u, rfl⟩ := h
  exact ⟨t.filter p, u.filter p, by simp [List.filter_append, hk]⟩

/-- A keyword that survives `limpar` unchanged is still a substring after the
description is normalised. -/
theorem contem_limpar {sub d : String} (h : contem sub d = true)
    (h1 : sub.data.filter (fun a => a != ' ') = sub.data)
    (h2 : sub.data.filter (fun a => a != '.') = sub.data)
    (h3 : sub.data.filter (fun a => a != '-') = sub.data) :
    contem sub (limpar d) = true := by
  rw [contem_iff] at h ⊢
  show sub.data <:+: semChar '-' (semChar '.' (semChar ' ' d.data))
  exact infix_filter _ (infix_filter _ (infix_filter _ h h1) h2) h3

/-! ## Lemmas about the classifier -/

/-- In the expense branch (`valor ≤ 0`, no income keyword), `categorizar`
is the first matching `MAPEAMENTO` entry (default `"Necessidade"`), tipo
`"Despesa"`, and the fixed flag from the normalised keyword scan. -/
theorem categorizar_despesa (descricao : String) (valor : Int)
    (hcond : (decide (0 < valor) || contem "recebida" (minusculas descricao)
        || contem "salario" (minusculas descricao)) = false) :
    categorizar descricao valor =
      (((MAPEAMENTO.find? fun par => par.2.any fun palavra =>
            contem palavra (minusculas descricao)).map Prod.fst).getD "Necessidade",
        "Despesa",
        GASTOS_FIXOS_KEYWORDS.any fun palavra =>
          contem (limpar palavra) (limpar (minusculas descricao))) := by
  simp only [categorizar, hcond, Bool.false_eq_true, if_false]
  cases hf : MAPEAMENTO.find? fun par => par.2.any fun palavra =>
      contem palavra (minusculas descricao) with
  | none => simp
  | some par => simp

/-- `strftime('%d/%m/%Y')` applied by the CSV reader to a parsed calendar
date (day/month zero-padded to two digits). -/
def formatData (dia mes ano : Nat) : String :=
  (if dia < 10 then "0" ++ natStr dia else natStr dia) ++ "/" ++
    (if mes < 10 then "0" ++ natStr mes else natStr mes) ++ "/" ++ natStr ano

/-- **C8** (amended): for every description containing "aluguel" classified
as an expense (amount not positive, no income marker), the classifier sets
`eh_fixo = true` and tipo `"Despesa"`; the category is the first matching
`MAPEAMENTO` entry — since "aluguel" is a "Casa" keyword it does not in
general fall back to "Necessidade". -/
theorem aluguel_gasto_fixo (descricao : String) (valor : Int)
    (hal : contem "aluguel" (minusculas descricao) = true)
    (hv : valor ≤ 0)
    (hrec : contem "recebida" (minusculas descricao) = false)
    (hsal : contem "salario" (minusculas descricao) = false) :
    (categorizar descricao valor).2.2 = true ∧
      (categorizar descricao valor).2.1 = "Despesa" := by
  have hcond : (decide (0 < valor) || contem "recebida" (minusculas descricao)
      || contem "salario" (minusculas descricao)) = false := by
    simp [hrec, hsal, decide_eq_false (by omega : ¬(0 : Int) < valor)]
  rw [categorizar_despesa descricao valor hcond]
  refine ⟨?_, rfl⟩
  show (GASTOS_FIXOS_KEYWORDS.any fun palavra =>
      contem (limpar palavra) (limpar (minusculas descricao))) = true
  apply List.any_eq_true.mpr
  refine ⟨"aluguel", by simp [GASTOS_FIXOS_KEYWORDS], ?_⟩
  rw [show limpar "aluguel" = "aluguel" from rfl]
  exact contem_limpar hal (by decide) (by decide) (by decide)

/-- **C8** witness: concrete instance of `aluguel_gasto_fixo`. -/
theorem aluguel_gasto_fixo_wit :
    (categorizar "Aluguel Apartamento" (-150000)).2.2 = true ∧
      (categorizar "Aluguel Apartamento" (-150000)).2.1 = "Despesa" :=
  aluguel_gasto_fixo "Aluguel Apartamento" (-150000)
    (by decide) (by decide) (by decide) (by decide)

/-- **C8** counterexample to the claim as stated: "aluguel" is a keyword of
the "Casa" entry of `MAPEAMENTO`, so the classifier returns category
"Casa", not the claimed fallback "Necessidade". -/
theorem aluguel_necessidade_contra :
    categorizar "aluguel" (-100) = ("Casa", "Despesa", true) ∧
      ("Casa" : String) ≠ "Necessidade" := by decide

/-- **C9** (amended): a description containing "ifood" with a negative
amount and no income marker is classified ("Delivery", Despesa), provided
no keyword of the earlier "Transporte" entry also occurs in it (the
category scan is first-match-wins in declaration order). -/
theorem ifood_delivery (descricao : String) (valor : Int)
    (hneg : valor < 0)
    (hif : contem "ifood" (minusculas descricao) = true)
    (hrec : contem "recebida" (minusculas descricao) = false)
    (hsal : contem "salario" (minusculas descricao) = false)
    (htra : ((["uber", "99", "taxi", "gasolina", "posto", "ipva", "estacionamento",
        "onibus", "metro"] : List String).any fun palavra =>
          contem palavra (minusculas descricao)) = false) :
    (categorizar descricao valor).1 = "Delivery" ∧
      (categorizar descricao valor).2.1 = "Despesa" := by
  have hcond : (decide (0 < valor) || contem "recebida" (minusculas descricao)
      || contem "salario" (minusculas descricao)) = false := by
    simp [hrec, hsal, decide_eq_false (by omega : ¬(0 : Int) < valor)]
  rw [categorizar_despesa descricao valor hcond]
  have hfind : (MAPEAMENTO.find? fun par => par.2.any fun palavra =>
      contem palavra (minusculas descricao)) =
      some ("Delivery", ["ifood", "rappi", "uber eats", "delivery"]) := by
    simp only [MAPEAMENTO]
    rw [List.find?_cons_of_neg _ (by simp [htra]),
      List.find?_cons_of_pos _ (by simp [hif])]
  rw [hfind]
  exact ⟨rfl, rfl⟩

/-- **C9** witness: concrete instance of `ifood_delivery`. -/
theorem ifood_delivery_wit :
    (categorizar "IFOOD PEDIDO" (-4200)).1 = "Delivery" ∧
      (categorizar "IFOOD PEDIDO" (-4200)).2.1 = "Despesa" :=
  ifood_delivery "IFOOD PEDIDO" (-4200)
    (by decide) (by decide) (by decide) (by decide) (by decide)

/-- **C9** counterexample to the claim as stated: "ifood 99" contains
"ifood" and has a negative amount, yet the classifier returns "Transporte"
because the substring "99" matches the earlier "Transporte" entry. -/
theorem ifood_transporte_contra :
    contem "ifood" (minusculas "ifood 99") = true ∧
      categorizar "ifood 99" (-100) = ("Transporte", "Despesa", false) := by decide

/-- **C10**: end-to-end facts for the record `{date: 2024-01-05,
description: "UBER *TRIP", amount: -23.50}`: the date renders as
"05/01/2024", the hash preimage is exactly "05/01/2024|UBER *TRIP|-23.5",
the hash is its MD5 hex digest, the classification is ("Transporte",
Despesa, fixed=false), and the payment method falls back to "Pix" because
neither "pix" nor "cartao"/"credito" occurs. -/
theorem caso_uber_trip :
    formatData 5 1 2024 = "05/01/2024" ∧
      texto_hash { Data := formatData 5 1 2024, Descricao := "UBER *TRIP", Valor := -2350 } =
        "05/01/2024|UBER *TRIP|-23.5" ∧
      gerar_hash_transacao
          { Data := formatData 5 1 2024, Descricao := "UBER *TRIP", Valor := -2350 } =
        MD5.md5Hex "05/01/2024|UBER *TRIP|-23.5" ∧
      MD5.md5Hex "05/01/2024|UBER *TRIP|-23.5" = "d6a5568b1152680043e71ce062c27c5c" ∧
      categorizar "UBER *TRIP" (-2350) = ("Transporte", "Despesa", false) ∧
      contem "pix" (minusculas "UBER *TRIP") = false ∧
      contem "cartao" (minusculas "UBER *TRIP") = false ∧
      contem "credito" (minusculas "UBER *TRIP") = false ∧
      identificar_forma_pagamento "UBER *TRIP" = "Pix" := by
  refine ⟨by decide, by decide, congrArg MD5.md5Hex (by decide), by decide,
    by decide, by decide, by decide, by decide, by decide⟩

/-! ## The allocator: correctness of `_encontrar_proxima_linha_vazia` -/

/-- Specification-side definition, following the spec's words for
comparison: the first row of `[inicio, fim]` whose probe cell is empty,
`none` (Exhausted) when every row in the range is non-empty. -/
def nextFreeRowSpec (cell : Nat → String) (inicio fim : Nat) : Option Nat :=
  (List.range' inicio (fim + 1 - inicio)).find? fun lin => cell lin == ""

theorem buscaLinhaVazia_nil (linha : Nat) : buscaLinhaVazia [] linha = none := rfl

theorem buscaLinhaVazia_cons_nil (resto : List (List String)) (linha : Nat) :
    buscaLinhaVazia ([] :: resto) linha = some linha := rfl

theorem buscaLinhaVazia_cons_cons (v : String) (t : List String)
    (resto : List (List String)) (linha : Nat) :
    buscaLinhaVazia ((v :: t) :: resto) linha =
      if v = "" then some linha else buscaLinhaVazia resto (linha + 1) := rfl

theorem buscaLinhaVazia_map (cell : Nat → String) :
    ∀ (n inicio : Nat),
      buscaLinhaVazia ((List.range' inicio n).map fun lin =>
          if cell lin = "" then ([] : List String) else [cell lin]) inicio =
        (List.range' inicio n).find? (fun lin => cell lin == "") := by
  intro n
  induction n with
  | zero => intro inicio; rfl
  | succ n ih =>
    intro inicio
    rw [List.range'_succ, List.map_cons]
    by_cases hc : cell inicio = ""
    · rw [if_pos hc, buscaLinhaVazia_cons_nil,
        List.find?_cons_of_pos _ (by simp [hc])]
    · rw [if_neg hc, buscaLinhaVazia_cons_cons, if_neg hc,
        List.find?_cons_of_neg _ (by simp [hc]), ih]

theorem buscaLinhaVazia_ge :
    ∀ (valores : List (List String)) (inicio l : Nat),
      buscaLinhaVazia valores inicio = some l → inicio ≤ l := by
  intro valores
  induction valores with
  | nil => intro inicio l h; rw [buscaLinhaVazia_nil] at h; cases h
  | cons lv resto ih =>
    intro inicio l h
    cases lv with
    | nil =>
      rw [buscaLinhaVazia_cons_nil] at h
      injection h with h
      omega
    | cons v t =>
      rw [buscaLinhaVazia_cons_cons] at h
      by_cases hv : v = ""
      · rw [if_pos hv] at h
        injection h with h
        omega
      · rw [if_neg hv] at h
        have := ih (inicio + 1) l h
        omega

/-- **C4**: `_encontrar_proxima_linha_vazia` returns exactly the first row
of `[inicio, fim]` whose probed cell is empty, and `none` (Exhausted) when
every row in the range is non-empty, leaving the state untouched. -/
theorem encontrar_linha_vazia_correto (col : String) (inicio fim : Nat) (s : Planilha)
    (hif : inicio ≤ fim) (hr : s.failMesRead = false) :
    encontrar_proxima_linha_vazia col inicio fim s =
      .ok (nextFreeRowSpec (fun lin => lookupMes s col lin) inicio fim) s := by
  unfold encontrar_proxima_linha_vazia getMesRange nextFreeRowSpec
  rw [hr]
  simp only [Bool.false_eq_true, if_false]
  obtain ⟨n, hn⟩ : ∃ n, fim + 1 - inicio = n + 1 := ⟨fim - inicio, by omega⟩
  rw [hn]
  have hmap := buscaLinhaVazia_map (fun lin => lookupMes s col lin) (n + 1) inicio
  rw [List.range'_succ, List.map_cons] at hmap ⊢
  simp only [List.isEmpty_cons, Bool.false_eq_true, if_false]
  rw [hmap]

/-- **C4** witness: a 5-row section with rows 1–3 occupied yields row 4;
with all five rows occupied it yields Exhausted (`none`). -/
theorem encontrar_linha_vazia_correto_wit :
    (encontrar_proxima_linha_vazia "B" 1 5
        { mes := [(("B", 1), "x"), (("B", 2), "y"), (("B", 3), "z")], hist := none,
          failHistOpen := false, failHistRead := false, failHistWrite := false,
          failMesRead := false, failMesWrite := false, agora := "" } =
      .ok (some 4)
        { mes := [(("B", 1), "x"), (("B", 2), "y"), (("B", 3), "z")], hist := none,
          failHistOpen := false, failHistRead := false, failHistWrite := false,
          failMesRead := false, failMesWrite := false, agora := "" }) ∧
      (encontrar_proxima_linha_vazia "B" 1 5
          { mes := [(("B", 1), "x"), (("B", 2), "y"), (("B", 3), "z"), (("B", 4), "w"),
              (("B", 5), "v")], hist := none,
            failHistOpen := false, failHistRead := false, failHistWrite := false,
            failMesRead := false, failMesWrite := false, agora := "" } =
        .ok none
          { mes := [(("B", 1), "x"), (("B", 2), "y"), (("B", 3), "z"), (("B", 4), "w"),
              (("B", 5), "v")], hist := none,
            failHistOpen := false, failHistRead := false, failHistWrite := false,
            failMesRead := false, failMesWrite := false, agora := "" }) := by
  constructor
  · rw [encontrar_linha_vazia_correto "B" 1 5 _ (by decide) rfl]; decide
  · rw [encontrar_linha_vazia_correto "B" 1 5 _ (by decide) rfl]; decide

/-! ## Frame reasoning for `_inserir_generico` -/

/-- `s'` agrees with `s` on every field except possibly the month-tab cells. -/
def MesmoExcetoMes (s s' : Planilha) : Prop :=
  s'.hist = s.hist ∧ s'.failHistOpen = s.failHistOpen ∧ s'.failHistRead = s.failHistRead ∧
    s'.failHistWrite = s.failHistWrite ∧ s'.failMesRead = s.failMesRead ∧
    s'.failMesWrite = s.failMesWrite ∧ s'.agora = s.agora

theorem MesmoExcetoMes.auto (s : Planilha) : MesmoExcetoMes s s :=
  ⟨rfl, rfl, rfl, rfl, rfl, rfl, rfl⟩

theorem MesmoExcetoMes.trans {s1 s2 s3 : Planilha}
    (h : MesmoExcetoMes s1 s2) (h' : MesmoExcetoMes s2 s3) : MesmoExcetoMes s1 s3 := by
  obtain ⟨a, b, c, d, e, f, g⟩ := h
  obtain ⟨a', b', c', d', e', f', g'⟩ := h'
  exact ⟨a'.trans a, b'.trans b, c'.trans c, d'.trans d, e'.trans e, f'.trans f, g'.trans g⟩

theorem lookupMes_cons (s : Planilha) (col : String) (linha : Nat) (v : String)
    (c : String) (l : Nat) :
    lookupMes { s with mes := ((col, linha), v) :: s.mes } c l =
      if col = c ∧ linha = l then v else lookupMes s c l := by
  by_cases h : col = c ∧ linha = l
  · rw [if_pos h]
    unfold lookupMes
    rw [List.find?_cons_of_pos _ (by simp [h.1, h.2])]
  · rw [if_neg h]
    unfold lookupMes
    rw [List.find?_cons_of_neg _ (by simpa [-not_and, Bool.and_eq_true, beq_iff_eq] using h)]

/-- The write loop succeeds when the transport does not fail, changes no
field outside the month tab, and touches no cell outside column `col`,
rows `[linha, fim]`. -/
theorem inserirLoop_feliz (col : String) (fim : Nat) :
    ∀ (df : List Transacao) (linha : Nat) (s : Planilha), s.failMesWrite = false →
      ∃ s', inserirLoop col fim df linha s = .ok () s' ∧ MesmoExcetoMes s s' ∧
        ∀ c l, (c ≠ col ∨ l < linha ∨ fim < l) → lookupMes s' c l = lookupMes s c l := by
  intro df
  induction df with
  | nil =>
    intro linha s hw
    exact ⟨s, rfl, MesmoExcetoMes.auto s, fun c l _ => rfl⟩
  | cons r resto ih =>
    intro linha s hw
    by_cases hl : fim < linha
    · refine ⟨s, ?_, MesmoExcetoMes.auto s, fun c l _ => rfl⟩
      unfold inserirLoop
      rw [if_pos hl]
    · have hupd : updateMesCell col linha (truncar50 r.Descricao) s =
          .ok () { s with mes := ((col, linha), truncar50 r.Descricao) :: s.mes } := by
        unfold updateMesCell
        rw [hw]
        rfl
      obtain ⟨s', hrun, hmes, hframe⟩ :=
        ih (linha + 1) { s with mes := ((col, linha), truncar50 r.Descricao) :: s.mes } hw
      refine ⟨s', ?_, ?_, ?_⟩
      · unfold inserirLoop
        rw [if_neg hl, hupd]
        exact hrun
      · exact MesmoExcetoMes.trans ⟨rfl, rfl, rfl, rfl, rfl, rfl, rfl⟩ hmes
      · intro c l hc
        have h3 : c ≠ col ∨ l < linha + 1 ∨ fim < l := by
          rcases hc with h | h | h
          · exact Or.inl h
          · exact Or.inr (Or.inl (by omega))
          · exact Or.inr (Or.inr h)
        have h2 : ¬(col = c ∧ linha = l) := by
          rcases hc with h | h | h
          · exact fun hx => h hx.1.symm
          · intro hx; omega
          · intro hx; omega
        rw [hframe c l h3, lookupMes_cons, if_neg h2]

/-- The allocator scan, in the happy path, returns without touching the
state, and any row it returns is at least `inicio`. -/
theorem encontrar_feliz (col : String) (inicio fim : Nat) (s : Planilha)
    (hr : s.failMesRead = false) :
    ∃ olinha, encontrar_proxima_linha_vazia col inicio fim s = .ok olinha s ∧
      ∀ linha, olinha = some linha → inicio ≤ linha := by
  unfold encontrar_proxima_linha_vazia getMesRange
  rw [hr]
  simp only [Bool.false_eq_true, if_false]
  by_cases hemp : ((List.range' inicio (fim + 1 - inicio)).map fun lin =>
      if lookupMes s col lin = "" then ([] : List String) else [lookupMes s col lin]).isEmpty = true
  · refine ⟨some inicio, by rw [if_pos hemp], ?_⟩
    intro linha h
    injection h with h
    omega
  · refine ⟨_, by rw [if_neg hemp], ?_⟩
    intro linha h
    exact buscaLinhaVazia_ge _ inicio linha h

theorem inserir_generico_de_none {col : String} {inicio fim : Nat} {s sx : Planilha}
    (h : encontrar_proxima_linha_vazia col inicio fim s = .ok none sx)
    (df : List Transacao) : inserir_generico df col inicio fim s = .ok () sx := by
  unfold inserir_generico
  rw [h]

theorem inserir_generico_de_some {col : String} {inicio fim linha : Nat} {s sx : Planilha}
    (h : encontrar_proxima_linha_vazia col inicio fim s = .ok (some linha) sx)
    (df : List Transacao) :
    inserir_generico df col inicio fim s =
      if linha ≠ 0 ∧ linha ≤ fim then inserirLoop col fim df linha sx else .ok () sx := by
  unfold inserir_generico
  rw [h]

/-- Happy-path behaviour of one section insert: never raises, only
month-tab cells inside column `col`, rows `[inicio, fim]` change. -/
theorem inserir_generico_feliz (df : List Transacao) (col : String) (inicio fim : Nat)
    (s : Planilha) (hr : s.failMesRead = false) (hw : s.failMesWrite = false) :
    ∃ s', inserir_generico df col inicio fim s = .ok () s' ∧ MesmoExcetoMes s s' ∧
      ∀ c l, (c ≠ col ∨ l < inicio ∨ fim < l) → lookupMes s' c l = lookupMes s c l := by
  obtain ⟨olinha, henc, hge⟩ := encontrar_feliz col inicio fim s hr
  cases olinha with
  | none =>
    rw [inserir_generico_de_none henc df]
    exact ⟨s, rfl, MesmoExcetoMes.auto s, fun _ _ _ => rfl⟩
  | some linha =>
    rw [inserir_generico_de_some henc df]
    by_cases hcond : linha ≠ 0 ∧ linha ≤ fim
    · rw [if_pos hcond]
      obtain ⟨s', hrun, hmes, hframe⟩ := inserirLoop_feliz col fim df linha s hw
      refine ⟨s', hrun, hmes, fun c l hc => hframe c l ?_⟩
      have hge' : inicio ≤ linha := hge linha rfl
      rcases hc with h | h | h
      · exact Or.inl h
      · exact Or.inr (Or.inl (by omega))
      · exact Or.inr (Or.inr h)
    · rw [if_neg hcond]
      exact ⟨s, rfl, MesmoExcetoMes.auto s, fun _ _ _ => rfl⟩

/-- **C3**: `_inserir_generico` never raises in the happy path and writes
cells only in the section's probe column within rows `[inicio, fim]`,
silently dropping any records that do not fit; every cell outside that
range (and the whole ledger) is untouched. -/
theorem inserir_generico_frame (df : List Transacao) (col : String) (inicio fim : Nat)
    (s : Planilha) (hr : s.failMesRead = false) (hw : s.failMesWrite = false) :
    ∃ s', inserir_generico df col inicio fim s = .ok () s' ∧
      s'.hist = s.hist ∧
      ∀ c l, (c ≠ col ∨ l < inicio ∨ fim < l) → lookupMes s' c l = lookupMes s c l := by
  obtain ⟨s', h1, h2, h3⟩ := inserir_generico_feliz df col inicio fim s hr hw
  exact ⟨s', h1, h2.1, h3⟩

/-- Common base state for the concrete witnesses. -/
def estadoBase : Planilha :=
  { mes := [], hist := none, failHistOpen := false, failHistRead := false,
    failHistWrite := false, failMesRead := false, failMesWrite := false,
    agora := "31/01/2024 10:00:00" }

/-- **C3** witness: a three-record batch against a two-row section of a
base state with rows 10–19 free. -/
theorem inserir_generico_frame_wit :
    ∃ s', inserir_generico
        [{ Data := "01/01/2024", Descricao := "mercado a", Valor := -1000 },
         { Data := "02/01/2024", Descricao := "mercado b", Valor := -2000 },
         { Data := "03/01/2024", Descricao := "mercado c", Valor := -3000 }]
        "B" 10 11 estadoBase = .ok () s' ∧
      s'.hist = estadoBase.hist ∧
      ∀ c l, (c ≠ "B" ∨ l < 10 ∨ 11 < l) → lookupMes s' c l = lookupMes estadoBase c l :=
  inserir_generico_frame _ "B" 10 11 estadoBase rfl rfl

/-! ## Unfolding lemmas for the orchestrator -/

theorem importar_de_err {df : List Transacao} {s s1 : Planilha} {e : GErr}
    (h : get_transacoes_existentes s = .err e s1) :
    importar_transacoes df s = .err e s1 := by
  unfold importar_transacoes
  rw [h]

theorem importar_de_ok {df : List Transacao} {s s1 : Planilha} {existentes : List String}
    (h : get_transacoes_existentes s = .ok existentes s1) :
    importar_transacoes df s =
      (if (sobreviventes df existentes).isEmpty then .ok .nenhumaNova s1
       else
         match processar_insercoes ((sobreviventes df existentes).map classificar) s1 with
         | .err e s2 => .err e s2
         | .ok _ s2 =>
           .ok (.importadas (sobreviventes df existentes).length)
             (atualizar_historico (sobreviventes df existentes) s2)) := by
  unfold importar_transacoes
  rw [h]

/-! ## C6: ledger read failure semantics -/

/-- **C6** (amended): when the history worksheet does not exist it is
lazily created with the fixed header and the empty set is returned;
transport failures opening or reading the worksheet propagate; but an
existing, readable table whose header lacks a `Hash` column is silently
treated as the empty set (no error). -/
theorem get_transacoes_tratamento (s : Planilha) (rows : List (List String)) :
    (s.failHistOpen = false → s.hist = none →
      get_transacoes_existentes s = .ok [] (criar_aba_historico s) ∧
        (criar_aba_historico s).hist = some [cabecalhoHistorico]) ∧
    (s.failHistOpen = true → get_transacoes_existentes s = .err .transport s) ∧
    (s.failHistOpen = false → s.failHistRead = true → s.hist = some rows →
      get_transacoes_existentes s = .err .transport s) ∧
    (s.failHistOpen = false → s.failHistRead = false → s.hist = some rows →
      hashColumn rows = none → get_transacoes_existentes s = .ok [] s) := by
  refine ⟨fun h1 h2 => ⟨?_, rfl⟩, fun h1 => ?_, fun h1 h2 h3 => ?_, fun h1 h2 h3 h4 => ?_⟩
  · simp [get_transacoes_existentes, abrirHistorico, h1, h2]
  · simp [get_transacoes_existentes, abrirHistorico, h1]
  · simp [get_transacoes_existentes, abrirHistorico, h1, h2, h3]
  · simp [get_transacoes_existentes, abrirHistorico, h1, h2, h3, h4]

/-- **C6** witness: the four behaviours at concrete states. -/
theorem get_transacoes_tratamento_wit :
    (get_transacoes_existentes estadoBase = .ok [] (criar_aba_historico estadoBase) ∧
      (criar_aba_historico estadoBase).hist = some [cabecalhoHistorico]) ∧
      get_transacoes_existentes { estadoBase with failHistOpen := true } =
        .err .transport { estadoBase with failHistOpen := true } ∧
      get_transacoes_existentes
          { estadoBase with hist := some [cabecalhoHistorico], failHistRead := true } =
        .err .transport
          { estadoBase with hist := some [cabecalhoHistorico], failHistRead := true } :=
  ⟨(get_transacoes_tratamento estadoBase []).1 rfl rfl,
    (get_transacoes_tratamento { estadoBase with failHistOpen := true } []).2.1 rfl,
    (get_transacoes_tratamento
        { estadoBase with hist := some [cabecalhoHistorico], failHistRead := true }
        [cabecalhoHistorico]).2.2.1 rfl rfl rfl⟩

/-- **C6** counterexample to the claim as stated: an existing ledger whose
content is malformed (header row without a `Hash` column) does NOT
propagate an error — it is silently treated as the empty hash set. -/
theorem historico_malformado_contra :
    get_transacoes_existentes { estadoBase with hist := some [["Nome", "Valor"]] } =
        .ok [] { estadoBase with hist := some [["Nome", "Valor"]] } ∧
      ehErro (get_transacoes_existentes
        { estadoBase with hist := some [["Nome", "Valor"]] }) = false := by decide

/-! ## C7: write failure semantics -/

/-- **C7** (amended): a transport failure while reading the ledger, or one
raised during the section-insert phase, propagates out of
`importar_transacoes` with the state exactly as the failing phase left it
(no rollback of earlier writes); a failure inside the history append,
however, is caught and logged — `_atualizar_historico` returns the state
unchanged and the run completes as a success. -/
theorem falha_escrita_propagacao (df : List Transacao) (s s1 s2 : Planilha) (e : GErr) :
    (get_transacoes_existentes s = .err e s1 → importar_transacoes df s = .err e s1) ∧
    (∀ existentes, get_transacoes_existentes s = .ok existentes s1 →
      (sobreviventes df existentes).isEmpty = false →
      processar_insercoes ((sobreviventes df existentes).map classificar) s1 = .err e s2 →
      importar_transacoes df s = .err e s2) ∧
    (s.failHistWrite = true → atualizar_historico df s = s) := by
  refine ⟨fun h => importar_de_err h, fun existentes h hne hp => ?_, fun hw => ?_⟩
  · rw [importar_de_ok h, if_neg (by simp [hne]), hp]
  · unfold atualizar_historico abrirHistorico
    cases ho : s.failHistOpen with
    | true => simp
    | false =>
      cases hh : s.hist with
      | none => simp
      | some rows =>
        cases hrd : s.failHistRead with
        | true => simp [hrd]
        | false => simp [hrd, hw]

/-- **C7** witness: propagation of a ledger-read failure and of a
section-write failure, and the swallowed history-append failure, at
concrete states. -/
theorem falha_escrita_propagacao_wit :
    importar_transacoes [{ Data := "02/01/2024", Descricao := "mercado", Valor := -1500 }]
        { estadoBase with failHistOpen := true } =
      .err .transport { estadoBase with failHistOpen := true } ∧
      importar_transacoes [{ Data := "02/01/2024", Descricao := "mercado", Valor := -1500 }]
          { estadoBase with hist := some [cabecalhoHistorico], failMesWrite := true } =
        .err .transport { estadoBase with hist := some [cabecalhoHistorico], failMesWrite := true } ∧
      atualizar_historico [{ Data := "02/01/2024", Descricao := "mercado", Valor := -1500 }]
          { estadoBase with hist := some [cabecalhoHistorico], failHistWrite := true } =
        { estadoBase with hist := some [cabecalhoHistorico], failHistWrite := true } :=
  ⟨(falha_escrita_propagacao _ _ _ estadoBase .transport).1 (by decide),
    (falha_escrita_propagacao _ _
        { estadoBase with hist := some [cabecalhoHistorico], failMesWrite := true }
        { estadoBase with hist := some [cabecalhoHistorico], failMesWrite := true }
        .transport).2.1 [] (by decide) (by decide) (by decide),
    (falha_escrita_propagacao _
        { estadoBase with hist := some [cabecalhoHistorico], failHistWrite := true }
        estadoBase estadoBase .transport).2.2 rfl⟩

/-- **C7** counterexample to the claim as stated: with the history-append
transport failing, the batch does not abort — the run returns success and
the ledger silently misses the batch's rows. -/
theorem falha_historico_engolida_contra :
    ehErro (importar_transacoes
        [{ Data := "05/01/2024", Descricao := "UBER *TRIP", Valor := -2350 }]
        { estadoBase with hist := some [cabecalhoHistorico], failHistWrite := true }) = false ∧
      (estadoFinal (importar_transacoes
          [{ Data := "05/01/2024", Descricao := "UBER *TRIP", Valor := -2350 }]
          { estadoBase with hist := some [cabecalhoHistorico], failHistWrite := true })).hist =
        some [cabecalhoHistorico] := by decide

/-! ## C5: the hash preimage determines the record

`_gerar_hash_transacao` feeds `f"{Data}|{Descricao}|{Valor}"` to MD5.  We
prove that on `|`-free fields the preimage text is injective in the triple
(so distinct triples give distinct MD5 inputs), and that the amount
rendering itself is injective. -/

def valor10 (l : List Nat) : Nat := l.foldr (fun d a => d + 10 * a) 0

theorem valor10_nil : valor10 [] = 0 := rfl

theorem valor10_cons (d : Nat) (l : List Nat) : valor10 (d :: l) = d + 10 * valor10 l := rfl

theorem digAux_valor : ∀ (fuel n : Nat), n ≤ fuel → valor10 (digAux fuel n) = n := by
  intro fuel
  induction fuel with
  | zero =>
    intro n h
    have h0 : n = 0 := by omega
    subst h0
    rfl
  | succ fuel ih =>
    intro n h
    by_cases h0 : n = 0
    · subst h0; rfl
    · unfold digAux
      rw [if_neg h0, valor10_cons]
      have hd : n / 10 ≤ fuel := by
        have := Nat.div_lt_self (Nat.pos_of_ne_zero h0) (by omega : 1 < 10)
        omega
      rw [ih (n / 10) hd]
      omega

theorem digitos_valor (n : Nat) : valor10 (digitos n) = n := digAux_valor n n (Nat.le_refl n)

theorem digitos_inj {m n : Nat} (h : digitos m = digitos n) : m = n := by
  have hm := digitos_valor m
  rw [h, digitos_valor] at hm
  omega

theorem digAux_lt : ∀ (fuel n d : Nat), d ∈ digAux fuel n → d < 10 := by
  intro fuel
  induction fuel with
  | zero => intro n d h; simp [digAux] at h
  | succ fuel ih =>
    intro n d h
    unfold digAux at h
    by_cases h0 : n = 0
    · rw [if_pos h0] at h; simp at h
    · rw [if_neg h0] at h
      rcases List.mem_cons.mp h with h | h
      · omega
      · exact ih _ _ h

theorem digChar_toNat {d : Nat} (h : d < 10) : (digChar d).toNat = 48 + d := by
  interval_cases d <;> decide

theorem digChar_inj {d1 d2 : Nat} (h1 : d1 < 10) (h2 : d2 < 10)
    (h : digChar d1 = digChar d2) : d1 = d2 := by
  have e1 := digChar_toNat h1
  have e2 := digChar_toNat h2
  rw [h] at e1
  omega

theorem mapDigChar_inj :
    ∀ (l1 l2 : List Nat), (∀ d ∈ l1, d < 10) → (∀ d ∈ l2, d < 10) →
      l1.map digChar = l2.map digChar → l1 = l2 := by
  intro l1
  induction l1 with
  | nil =>
    intro l2 _ _ h
    cases l2 with
    | nil => rfl
    | cons b bs => simp at h
  | cons a as ih =>
    intro l2 hb1 hb2 h
    cases l2 with
    | nil => simp at h
    | cons b bs =>
      simp only [List.map_cons, List.cons.injEq] at h
      obtain ⟨h1, h2⟩ := h
      have hrec := ih bs (fun d hd => hb1 d (List.mem_cons_of_mem _ hd))
        (fun d hd => hb2 d (List.mem_cons_of_mem _ hd)) h2
      rw [digChar_inj (hb1 a (List.mem_cons_self a as)) (hb2 b (List.mem_cons_self b bs)) h1,
        hrec]

theorem natStr_data_digits (n : Nat) :
    ∀ c ∈ (natStr n).data, 48 ≤ c.toNat ∧ c.toNat ≤ 57 := by
  intro c hc
  unfold natStr at hc
  by_cases h0 : n = 0
  · rw [if_pos h0] at hc
    have haux : ∀ c ∈ ("0" : String).data, 48 ≤ c.toNat ∧ c.toNat ≤ 57 := by decide
    exact haux c hc
  · rw [if_neg h0] at hc
    replace hc : c ∈ (digitos n).reverse.map digChar := hc
    obtain ⟨d, hd, rfl⟩ := List.mem_map.mp hc
    have hlt : d < 10 := digAux_lt n n d (List.mem_reverse.mp hd)
    rw [digChar_toNat hlt]
    omega

theorem natStr_data_ne_nil (n : Nat) : (natStr n).data ≠ [] := by
  unfold natStr
  by_cases h0 : n = 0
  · rw [if_pos h0]; decide
  · rw [if_neg h0]
    intro h
    replace h : (digitos n).reverse.map digChar = [] := h
    have hlen : (digitos n).length = 0 := by simpa using congrArg List.length h
    have hnil : digitos n = [] := List.length_eq_zero.mp hlen
    have hv := digitos_valor n
    rw [hnil] at hv
    exact h0 hv.symm

theorem natStr_inj {m n : Nat} (h : natStr m = natStr n) : m = n := by
  have hd : (natStr m).data = (natStr n).data := by rw [h]
  unfold natStr at hd
  by_cases hm : m = 0 <;> by_cases hn : n = 0
  · omega
  · exfalso
    rw [if_pos hm, if_neg hn] at hd
    have haux : ("0" : String).data = List.map digChar [0] := by decide
    rw [haux] at hd
    have h1 : ([0] : List Nat) = (digitos n).reverse :=
      mapDigChar_inj [0] (digitos n).reverse (by decide)
        (fun d hd' => digAux_lt n n d (List.mem_reverse.mp hd')) hd
    have h2 : digitos n = [0] := by
      have := congrArg List.reverse h1
      simpa using this.symm
    have hv := digitos_valor n
    rw [h2] at hv
    exact hn (by simpa [valor10_cons, valor10_nil] using hv.symm)
  · exfalso
    rw [if_neg hm, if_pos hn] at hd
    have haux : ("0" : String).data = List.map digChar [0] := by decide
    rw [haux] at hd
    have h1 : (digitos m).reverse = ([0] : List Nat) :=
      mapDigChar_inj (digitos m).reverse [0]
        (fun d hd' => digAux_lt m m d (List.mem_reverse.mp hd')) (by decide) hd
    have h2 : digitos m = [0] := by
      have := congrArg List.reverse h1
      simpa using this
    have hv := digitos_valor m
    rw [h2] at hv
    exact hm (by simpa [valor10_cons, valor10_nil] using hv.symm)
  · rw [if_neg hm, if_neg hn] at hd
    replace hd : (digitos m).reverse.map digChar = (digitos n).reverse.map digChar := hd
    have h1 := mapDigChar_inj (digitos m).reverse (digitos n).reverse
      (fun d hd' => digAux_lt m m d (List.mem_reverse.mp hd'))
      (fun d hd' => digAux_lt n n d (List.mem_reverse.mp hd')) hd
    have h2 : digitos m = digitos n := by
      have := congrArg List.reverse h1
      simpa using this
    exact digitos_inj h2

theorem append_sep_inj {sep : Char} :
    ∀ (a1 a2 r1 r2 : List Char), sep ∉ a1 → sep ∉ a2 →
      a1 ++ sep :: r1 = a2 ++ sep :: r2 → a1 = a2 ∧ r1 = r2 := by
  intro a1
  induction a1 with
  | nil =>
    intro a2 r1 r2 h1 h2 h
    cases a2 with
    | nil => simpa using h
    | cons b bs =>
      exfalso
      simp only [List.nil_append, List.cons_append, List.cons.injEq] at h
      apply h2
      rw [h.1]
      exact List.mem_cons_self b bs
  | cons a as ih =>
    intro a2 r1 r2 h1 h2 h
    cases a2 with
    | nil =>
      exfalso
      simp only [List.nil_append, List.cons_append, List.cons.injEq] at h
      apply h1
      rw [← h.1]
      exact List.mem_cons_self a as
    | cons b bs =>
      simp only [List.cons_append, List.cons.injEq] at h
      obtain ⟨hab, h'⟩ := h
      obtain ⟨e1, e2⟩ := ih bs r1 r2 (fun hm => h1 (List.mem_cons_of_mem _ hm))
        (fun hm => h2 (List.mem_cons_of_mem _ hm)) h'
      exact ⟨by rw [hab, e1], e2⟩

theorem strValor_data (c : Int) :
    (strValor c).data =
      (if c < 0 then ['-'] else []) ++
        ((natStr (c.natAbs / 100)).data ++ '.' :: (fracStr (c.natAbs % 100)).data) := by
  unfold strValor
  have hp : ("." : String).data = ['.'] := rfl
  by_cases hc : c < 0
  · rw [if_pos hc, if_pos hc]
    have hm : ("-" : String).data = ['-'] := rfl
    simp [String.data_append, hm, hp, List.append_assoc]
  · rw [if_neg hc, if_neg hc]
    simp [String.data_append, hp, List.append_assoc]

theorem fracStr_inj :
    ∀ f1, f1 < 100 → ∀ f2, f2 < 100 → fracStr f1 = fracStr f2 → f1 = f2 := by decide

theorem natStr_no_char {n : Nat} {ch : Char} (h : ch.toNat < 48 ∨ 57 < ch.toNat) :
    ch ∉ (natStr n).data := by
  intro hm
  have := natStr_data_digits n ch hm
  omega

/-- The decimal rendering of a centavo amount is injective (distinct
amounts always render to distinct `Valor` texts). -/
theorem strValor_inj {c1 c2 : Int} (h : strValor c1 = strValor c2) : c1 = c2 := by
  have hd : (strValor c1).data = (strValor c2).data := by rw [h]
  rw [strValor_data, strValor_data] at hd
  have core : ∀ {qa qb : Nat} {fa fb : List Char},
      (natStr qa).data ++ '.' :: fa = (natStr qb).data ++ '.' :: fb →
      qa = qb ∧ fa = fb := by
    intro qa qb fa fb hh
    obtain ⟨e1, e2⟩ := append_sep_inj _ _ _ _ (natStr_no_char (by decide))
      (natStr_no_char (by decide)) hh
    exact ⟨natStr_inj (String.ext e1), e2⟩
  have hfa : c1.natAbs % 100 < 100 := Nat.mod_lt _ (by omega)
  have hfb : c2.natAbs % 100 < 100 := Nat.mod_lt _ (by omega)
  by_cases h1 : c1 < 0 <;> by_cases h2 : c2 < 0
  · rw [if_pos h1, if_pos h2] at hd
    simp only [List.singleton_append, List.cons.injEq, true_and] at hd
    obtain ⟨hq, hf⟩ := core hd
    have hfrac := fracStr_inj _ hfa _ hfb (String.ext hf)
    omega
  · exfalso
    rw [if_pos h1, if_neg h2] at hd
    simp only [List.singleton_append, List.nil_append] at hd
    obtain ⟨ch, t, hnat⟩ : ∃ ch t, (natStr (c2.natAbs / 100)).data = ch :: t := by
      cases hh : (natStr (c2.natAbs / 100)).data with
      | nil => exact absurd hh (natStr_data_ne_nil _)
      | cons ch t => exact ⟨ch, t, rfl⟩
    rw [hnat] at hd
    have hdig := natStr_data_digits (c2.natAbs / 100) ch (by rw [hnat]; exact List.mem_cons_self _ _)
    have hch : ('-' : Char) = ch := (List.cons.injEq _ _ _ _ ▸ hd).1
    have h45 : ch.toNat = 45 := by rw [← hch]; decide
    omega
  · exfalso
    rw [if_neg h1, if_pos h2] at hd
    simp only [List.singleton_append, List.nil_append] at hd
    obtain ⟨ch, t, hnat⟩ : ∃ ch t, (natStr (c1.natAbs / 100)).data = ch :: t := by
      cases hh : (natStr (c1.natAbs / 100)).data with
      | nil => exact absurd hh (natStr_data_ne_nil _)
      | cons ch t => exact ⟨ch, t, rfl⟩
    rw [hnat] at hd
    have hdig := natStr_data_digits (c1.natAbs / 100) ch (by rw [hnat]; exact List.mem_cons_self _ _)
    have hch : ch = ('-' : Char) := (List.cons.injEq _ _ _ _ ▸ hd).1
    have h45 : ch.toNat = 45 := by rw [hch]; decide
    omega
  · rw [if_neg h1, if_neg h2] at hd
    simp only [List.nil_append] at hd
    obtain ⟨hq, hf⟩ := core hd
    have hfrac := fracStr_inj _ hfa _ hfb (String.ext hf)
    omega

theorem texto_hash_data (r : Transacao) :
    (texto_hash r).data =
      r.Data.data ++ '|' :: (r.Descricao.data ++ '|' :: (strValor r.Valor).data) := by
  unfold texto_hash
  have hb : ("|" : String).data = ['|'] := rfl
  simp [String.data_append, hb, List.append_assoc]

/-- **C5**: the hash is the MD5 hex digest of exactly
`Data ++ "|" ++ Descricao ++ "|" ++ strValor Valor`; records with equal
`(Data, Descricao, Valor)` triples hash identically; and on `|`-free
fields the preimage text determines the triple, so records differing in
any field feed MD5 distinct inputs (distinct hashes up to MD5 collisions,
the "overwhelming probability" part of the claim). -/
theorem hash_md5_preimagem (r1 r2 : Transacao)
    (hd1 : '|' ∉ r1.Data.data) (hd2 : '|' ∉ r2.Data.data)
    (he1 : '|' ∉ r1.Descricao.data) (he2 : '|' ∉ r2.Descricao.data) :
    gerar_hash_transacao r1 =
        MD5.md5Hex (r1.Data ++ "|" ++ r1.Descricao ++ "|" ++ strValor r1.Valor) ∧
      (r1.Data = r2.Data → r1.Descricao = r2.Descricao → r1.Valor = r2.Valor →
        gerar_hash_transacao r1 = gerar_hash_transacao r2) ∧
      (texto_hash r1 = texto_hash r2 →
        r1.Data = r2.Data ∧ r1.Descricao = r2.Descricao ∧ r1.Valor = r2.Valor) := by
  refine ⟨rfl, ?_, ?_⟩
  · intro e1 e2 e3
    unfold gerar_hash_transacao texto_hash
    rw [e1, e2, e3]
  · intro ht
    have hdata : (texto_hash r1).data = (texto_hash r2).data := by rw [ht]
    rw [texto_hash_data, texto_hash_data] at hdata
    obtain ⟨u1, u2⟩ := append_sep_inj _ _ _ _ hd1 hd2 hdata
    obtain ⟨v1, v2⟩ := append_sep_inj _ _ _ _ he1 he2 u2
    exact ⟨String.ext u1, String.ext v1, strValor_inj (String.ext v2)⟩

/-- **C5** witness: instance at two concrete records. -/
theorem hash_md5_preimagem_wit :
    gerar_hash_transacao { Data := "05/01/2024", Descricao := "UBER *TRIP", Valor := -2350 } =
        MD5.md5Hex ("05/01/2024" ++ "|" ++ "UBER *TRIP" ++ "|" ++ strValor (-2350)) ∧
      (("05/01/2024" : String) = "02/01/2024" → ("UBER *TRIP" : String) = "mercado" →
        (-2350 : Int) = -1500 →
        gerar_hash_transacao { Data := "05/01/2024", Descricao := "UBER *TRIP", Valor := -2350 } =
          gerar_hash_transacao { Data := "02/01/2024", Descricao := "mercado", Valor := -1500 }) ∧
      (texto_hash { Data := "05/01/2024", Descricao := "UBER *TRIP", Valor := -2350 } =
          texto_hash { Data := "02/01/2024", Descricao := "mercado", Valor := -1500 } →
        ("05/01/2024" : String) = "02/01/2024" ∧ ("UBER *TRIP" : String) = "mercado" ∧
          (-2350 : Int) = -1500) :=
  hash_md5_preimagem
    { Data := "05/01/2024", Descricao := "UBER *TRIP", Valor := -2350 }
    { Data := "02/01/2024", Descricao := "mercado", Valor := -1500 }
    (by decide) (by decide) (by decide) (by decide)

/-! ## Happy-path behaviour of the pipeline stages -/

theorem md5Hex_data_ne_nil (s : String) : (MD5.md5Hex s).data ≠ [] := by
  unfold MD5.md5Hex MD5.md5Bytes MD5.digestBytes MD5.bytesPalavra MD5.hexByte
  simp

theorem gerar_hash_ne (r : Transacao) : gerar_hash_transacao r ≠ "" := by
  unfold gerar_hash_transacao
  intro h
  exact md5Hex_data_ne_nil (texto_hash r) (by rw [h])

theorem hashColumn_cabecalho (corpo : List (List String)) :
    hashColumn (cabecalhoHistorico :: corpo) =
      some ((corpo.map fun row => row.getD 0 "").filter fun h => h ≠ "") := rfl

theorem ledgerHashes_cabecalho (s : Planilha) (corpo : List (List String))
    (hh : s.hist = some (cabecalhoHistorico :: corpo)) :
    ledgerHashes s = (corpo.map fun row => row.getD 0 "").filter fun h => h ≠ "" := by
  unfold ledgerHashes
  rw [hh]
  show (match hashColumn (cabecalhoHistorico :: corpo) with
        | none => ([] : List String)
        | some hs => hs) = _
  rw [hashColumn_cabecalho]

theorem ledgerHashes_none (s : Planilha) (hh : s.hist = none) : ledgerHashes s = [] := by
  unfold ledgerHashes
  rw [hh]

theorem sobreviventes_nil (df : List Transacao) : sobreviventes df [] = df := by
  unfold sobreviventes
  apply List.filter_eq_self.mpr
  intro r _
  rfl

theorem mem_sobreviventes {df : List Transacao} {ex : List String} {r : Transacao} :
    r ∈ sobreviventes df ex ↔ r ∈ df ∧ gerar_hash_transacao r ∉ ex := by
  unfold sobreviventes
  simp

theorem sobreviventes_eq_nil {df : List Transacao} {ex : List String}
    (h : ∀ r ∈ df, gerar_hash_transacao r ∈ ex) : sobreviventes df ex = [] := by
  unfold sobreviventes
  apply List.filter_eq_nil_iff.mpr
  intro r hr
  simp [h r hr]

theorem get_existentes_vazio (s : Planilha) (h1 : s.failHistOpen = false)
    (hh : s.hist = none) :
    get_transacoes_existentes s = .ok [] (criar_aba_historico s) := by
  simp [get_transacoes_existentes, abrirHistorico, h1, hh]

theorem get_existentes_ledger (s : Planilha) (rows : List (List String))
    (h1 : s.failHistOpen = false) (h2 : s.failHistRead = false)
    (hh : s.hist = some rows) :
    get_transacoes_existentes s = .ok (ledgerHashes s) s := by
  cases hc : hashColumn rows with
  | none => simp [get_transacoes_existentes, abrirHistorico, ledgerHashes, h1, h2, hh, hc]
  | some hs => simp [get_transacoes_existentes, abrirHistorico, ledgerHashes, h1, h2, hh, hc]

theorem atualizar_feliz (df : List Transacao) (s : Planilha) (rows : List (List String))
    (h1 : s.failHistOpen = false) (h2 : s.failHistRead = false) (h3 : s.failHistWrite = false)
    (hh : s.hist = some rows) :
    atualizar_historico df s =
      { s with hist := some (rows ++ df.map (linhaHistorico s.agora)) } := by
  simp [atualizar_historico, abrirHistorico, h1, h2, h3, hh]

theorem processar_feliz (df : List Classificada) (s : Planilha)
    (hr : s.failMesRead = false) (hw : s.failMesWrite = false) :
    ∃ s', processar_insercoes df s = .ok () s' ∧ MesmoExcetoMes s s' := by
  obtain ⟨s1, h1, m1, _⟩ := inserir_generico_feliz
    ((df.filter fun r => r.tipo == "Receita").map (·.base))
    Config.ENTRADAS_COL_DESCRICAO Config.ENTRADAS_INICIO_LINHA Config.ENTRADAS_FIM_LINHA
    s hr hw
  obtain ⟨s2, h2, m2, _⟩ := inserir_generico_feliz
    ((df.filter fun r => r.tipo == "Despesa" && r.ehFixo).map (·.base))
    Config.FIXOS_COL_DESCRICAO Config.FIXOS_INICIO_LINHA Config.FIXOS_FIM_LINHA
    s1 (m1.2.2.2.2.1.trans hr) (m1.2.2.2.2.2.1.trans hw)
  obtain ⟨s3, h3, m3, _⟩ := inserir_generico_feliz
    ((df.filter fun r => r.tipo == "Despesa" && !r.ehFixo).map (·.base))
    Config.VARIAVEIS_COL_DESCRICAO Config.VARIAVEIS_INICIO_LINHA Config.VARIAVEIS_FIM_LINHA
    s2 (m2.2.2.2.2.1.trans (m1.2.2.2.2.1.trans hr))
    (m2.2.2.2.2.2.1.trans (m1.2.2.2.2.2.1.trans hw))
  refine ⟨s3, ?_, (m1.trans m2).trans m3⟩
  unfold processar_insercoes
  simp only [h1, h2, h3]

theorem map_linhaHistorico_getD (t : String) (novas : List Transacao) :
    ((novas.map (linhaHistorico t)).map fun row => row.getD 0 "") =
      novas.map gerar_hash_transacao := by
  rw [List.map_map]
  rfl

theorem filter_hash_all (novas : List Transacao) :
    ((novas.map gerar_hash_transacao).filter fun h => h ≠ "") =
      novas.map gerar_hash_transacao := by
  apply List.filter_eq_self.mpr
  intro h hm
  obtain ⟨r, _, rfl⟩ := List.mem_map.mp hm
  exact decide_eq_true (gerar_hash_ne r)

/-- When nothing survives deduplication the run stops at the second step:
no section write, no history append. -/
theorem importar_nada (df : List Transacao) (s : Planilha)
    (hfo : s.failHistOpen = false) (hfr : s.failHistRead = false)
    (hemp : (sobreviventes df (ledgerHashes s)).isEmpty = true) :
    (∀ rows, s.hist = some rows → importar_transacoes df s = .ok .nenhumaNova s) ∧
    (s.hist = none → importar_transacoes df s = .ok .nenhumaNova (criar_aba_historico s)) := by
  constructor
  · intro rows hh
    rw [importar_de_ok (get_existentes_ledger s rows hfo hfr hh), if_pos hemp]
  · intro hh
    rw [ledgerHashes_none s hh] at hemp
    rw [importar_de_ok (get_existentes_vazio s hfo hh), if_pos hemp]

/-- The happy-path run with survivors: every surviving record's ledger row
is appended after the existing rows, with the state's timestamp. -/
theorem importar_feliz (df : List Transacao) (s : Planilha) (rows : List (List String))
    (hfo : s.failHistOpen = false) (hfr : s.failHistRead = false)
    (hfw : s.failHistWrite = false) (hmr : s.failMesRead = false)
    (hmw : s.failMesWrite = false)
    (hhist : s.hist = some rows ∨ (s.hist = none ∧ rows = [cabecalhoHistorico]))
    (hne : (sobreviventes df (ledgerHashes s)).isEmpty = false) :
    ∃ s1, importar_transacoes df s =
        .ok (.importadas (sobreviventes df (ledgerHashes s)).length) s1 ∧
      s1.hist = some (rows ++ (sobreviventes df (ledgerHashes s)).map (linhaHistorico s.agora)) ∧
      s1.failHistOpen = false ∧ s1.failHistRead = false ∧ s1.failHistWrite = false ∧
      s1.failMesRead = false ∧ s1.failMesWrite = false ∧ s1.agora = s.agora := by
  rcases hhist with hh | ⟨hh, hrows⟩
  · obtain ⟨s2, hproc, hm⟩ := processar_feliz
      ((sobreviventes df (ledgerHashes s)).map classificar) s hmr hmw
    have hat := atualizar_feliz (sobreviventes df (ledgerHashes s)) s2 rows
      (hm.2.1.trans hfo) (hm.2.2.1.trans hfr) (hm.2.2.2.1.trans hfw) (hm.1.trans hh)
    refine ⟨{ s2 with hist := some (rows ++ (sobreviventes df (ledgerHashes s)).map
        (linhaHistorico s.agora)) }, ?_, rfl, hm.2.1.trans hfo, hm.2.2.1.trans hfr,
      hm.2.2.2.1.trans hfw, hm.2.2.2.2.1.trans hmr, hm.2.2.2.2.2.1.trans hmw,
      hm.2.2.2.2.2.2⟩
    rw [importar_de_ok (get_existentes_ledger s rows hfo hfr hh), if_neg (by simp [hne])]
    simp only [hproc]
    rw [hat, hm.2.2.2.2.2.2]
  · rw [ledgerHashes_none s hh] at hne ⊢
    obtain ⟨s2, hproc, hm⟩ := processar_feliz
      ((sobreviventes df []).map classificar) (criar_aba_historico s) hmr hmw
    have hat := atualizar_feliz (sobreviventes df []) s2 [cabecalhoHistorico]
      (hm.2.1.trans hfo) (hm.2.2.1.trans hfr) (hm.2.2.2.1.trans hfw) hm.1
    refine ⟨{ s2 with hist := some ([cabecalhoHistorico] ++ (sobreviventes df []).map
        (linhaHistorico s.agora)) }, ?_, by rw [hrows], hm.2.1.trans hfo, hm.2.2.1.trans hfr,
      hm.2.2.2.1.trans hfw, hm.2.2.2.2.1.trans hmr, hm.2.2.2.2.2.1.trans hmw,
      hm.2.2.2.2.2.2⟩
    rw [importar_de_ok (get_existentes_vazio s hfo hh), if_neg (by simp [hne])]
    simp only [hproc]
    have hag : s2.agora = s.agora := hm.2.2.2.2.2.2
    rw [hat, hag]

/-! ## C2: the ledger records every survivor, written or not -/

def mesCheio : List ((String × Nat) × String) :=
  [(("B", 10), "a"), (("B", 11), "b"), (("B", 12), "c"), (("B", 13), "d"), (("B", 14), "e"),
   (("B", 15), "f"), (("B", 16), "g"), (("B", 17), "h"), (("B", 18), "i"), (("B", 19), "j")]

/-- A state whose Entradas section (B10–B19) is completely occupied. -/
def entradaCheia : Planilha :=
  { estadoBase with hist := some [cabecalhoHistorico], mes := mesCheio }

def rSalario : Transacao :=
  { Data := "05/01/2024", Descricao := "salario mensal", Valor := 500000 }

/-- **C2**: after deduplication the orchestrator appends every surviving
classified record to the history ledger with the import timestamp,
regardless of whether its row insertion was dropped by a full section;
concretely, with the Entradas rows exhausted an income record is marked
imported in the ledger while no month-tab cell is ever written for it. -/
theorem historico_registra_sobreviventes (df : List Transacao) (s : Planilha)
    (rows : List (List String))
    (hfo : s.failHistOpen = false) (hfr : s.failHistRead = false)
    (hfw : s.failHistWrite = false) (hmr : s.failMesRead = false)
    (hmw : s.failMesWrite = false)
    (hhist : s.hist = some rows ∨ (s.hist = none ∧ rows = [cabecalhoHistorico]))
    (hne : (sobreviventes df (ledgerHashes s)).isEmpty = false) :
    (∃ s1, importar_transacoes df s =
        .ok (.importadas (sobreviventes df (ledgerHashes s)).length) s1 ∧
      s1.hist = some (rows ++
        (sobreviventes df (ledgerHashes s)).map (linhaHistorico s.agora)) ∧
      ∀ r ∈ sobreviventes df (ledgerHashes s),
        linhaHistorico s.agora r ∈
          rows ++ (sobreviventes df (ledgerHashes s)).map (linhaHistorico s.agora)) ∧
    (ehErro (importar_transacoes [rSalario] entradaCheia) = false ∧
      (estadoFinal (importar_transacoes [rSalario] entradaCheia)).mes = mesCheio ∧
      gerar_hash_transacao rSalario ∈
        ledgerHashes (estadoFinal (importar_transacoes [rSalario] entradaCheia))) := by
  constructor
  · obtain ⟨s1, h1, h2, _⟩ := importar_feliz df s rows hfo hfr hfw hmr hmw hhist hne
    exact ⟨s1, h1, h2, fun r hr => List.mem_append_right _ (List.mem_map_of_mem _ hr)⟩
  · exact ⟨by decide, by decide, by decide⟩

/-- **C2** witness: concrete instance of the universal part. -/
theorem historico_registra_sobreviventes_wit :
    (∃ s1, importar_transacoes [rSalario] { estadoBase with hist := some [cabecalhoHistorico] } =
        .ok (.importadas (sobreviventes [rSalario]
          (ledgerHashes { estadoBase with hist := some [cabecalhoHistorico] })).length) s1 ∧
      s1.hist = some ([cabecalhoHistorico] ++
        (sobreviventes [rSalario]
            (ledgerHashes { estadoBase with hist := some [cabecalhoHistorico] })).map
          (linhaHistorico { estadoBase with hist := some [cabecalhoHistorico] }.agora)) ∧
      ∀ r ∈ sobreviventes [rSalario]
          (ledgerHashes { estadoBase with hist := some [cabecalhoHistorico] }),
        linhaHistorico { estadoBase with hist := some [cabecalhoHistorico] }.agora r ∈
          [cabecalhoHistorico] ++
            (sobreviventes [rSalario]
                (ledgerHashes { estadoBase with hist := some [cabecalhoHistorico] })).map
              (linhaHistorico { estadoBase with hist := some [cabecalhoHistorico] }.agora)) ∧
    (ehErro (importar_transacoes [rSalario] entradaCheia) = false ∧
      (estadoFinal (importar_transacoes [rSalario] entradaCheia)).mes = mesCheio ∧
      gerar_hash_transacao rSalario ∈
        ledgerHashes (estadoFinal (importar_transacoes [rSalario] entradaCheia))) :=
  historico_registra_sobreviventes [rSalario]
    { estadoBase with hist := some [cabecalhoHistorico] } [cabecalhoHistorico]
    rfl rfl rfl rfl rfl (Or.inl rfl) (by decide)

/-! ## C1: idempotence of a repeated import -/

/-- **C1** (amended): in the happy path, starting from an absent ledger or
one with the standard header whose Hash column lists each hash at most
once, and a batch with pairwise-distinct hashes: a first import followed by
a second import of the same batch leaves the second run stopping at the
deduplication stage (it filters 100% of the records and returns with the
state completely untouched), and the ledger lists each of the batch's
hashes exactly once. -/
theorem importar_idempotente (df : List Transacao) (s : Planilha)
    (corpo : List (List String))
    (hfo : s.failHistOpen = false) (hfr : s.failHistRead = false)
    (hfw : s.failHistWrite = false) (hmr : s.failMesRead = false)
    (hmw : s.failMesWrite = false)
    (hhist : s.hist = none ∨ s.hist = some (cabecalhoHistorico :: corpo))
    (hnodup : (df.map gerar_hash_transacao).Nodup)
    (hledger : (ledgerHashes s).Nodup) :
    ∃ r1 s1, importar_transacoes df s = .ok r1 s1 ∧
      importar_transacoes df s1 = .ok .nenhumaNova s1 ∧
      ∀ r ∈ df, (ledgerHashes s1).count (gerar_hash_transacao r) = 1 := by
  by_cases hemp : (sobreviventes df (ledgerHashes s)).isEmpty = true
  · rcases hhist with hh | hh
    · -- fresh ledger and nothing surviving: the batch must be empty
      have hex0 : ledgerHashes s = [] := ledgerHashes_none s hh
      have hdf : df = [] := by
        rw [hex0, sobreviventes_nil df] at hemp
        exact List.isEmpty_iff.mp hemp
      subst hdf
      refine ⟨.nenhumaNova, criar_aba_historico s,
        (importar_nada [] s hfo hfr hemp).2 hh, ?_, by simp⟩
      have hh1 : (criar_aba_historico s).hist = some [cabecalhoHistorico] := rfl
      have hemp1 : (sobreviventes []
          (ledgerHashes (criar_aba_historico s))).isEmpty = true := by
        simp [sobreviventes]
      exact (importar_nada [] (criar_aba_historico s) hfo hfr hemp1).1 _ hh1
    · -- existing ledger already lists every hash of the batch
      refine ⟨.nenhumaNova, s, (importar_nada df s hfo hfr hemp).1 _ hh,
        (importar_nada df s hfo hfr hemp).1 _ hh, ?_⟩
      intro r hr
      have hmem : gerar_hash_transacao r ∈ ledgerHashes s := by
        by_contra hnm
        have hin : r ∈ sobreviventes df (ledgerHashes s) := mem_sobreviventes.mpr ⟨hr, hnm⟩
        rw [List.isEmpty_iff.mp hemp] at hin
        simp at hin
      exact List.count_eq_one_of_mem hledger hmem
  · have hne : (sobreviventes df (ledgerHashes s)).isEmpty = false := by
      cases h : (sobreviventes df (ledgerHashes s)).isEmpty with
      | true => exact absurd h hemp
      | false => rfl
    rcases hhist with hh | hh
    · -- fresh ledger: every record survives and is appended once
      have hex0 : ledgerHashes s = [] := ledgerHashes_none s hh
      obtain ⟨s1, hrun, hh1, f1, f2, f3, f4, f5, hag⟩ :=
        importar_feliz df s [cabecalhoHistorico] hfo hfr hfw hmr hmw (Or.inr ⟨hh, rfl⟩) hne
      have hnov : sobreviventes df (ledgerHashes s) = df := by
        rw [hex0]
        exact sobreviventes_nil df
      have hh1' : s1.hist = some (cabecalhoHistorico :: df.map (linhaHistorico s.agora)) := by
        rw [hh1, hnov, List.singleton_append]
      have hex1 : ledgerHashes s1 = df.map gerar_hash_transacao := by
        rw [ledgerHashes_cabecalho s1 _ hh1', map_linhaHistorico_getD, filter_hash_all]
      have hemp1 : (sobreviventes df (ledgerHashes s1)).isEmpty = true := by
        rw [hex1]
        exact List.isEmpty_iff.mpr
          (sobreviventes_eq_nil fun r hr => List.mem_map_of_mem _ hr)
      refine ⟨_, s1, hrun, (importar_nada df s1 f1 f2 hemp1).1 _ hh1', ?_⟩
      intro r hr
      rw [hex1]
      exact List.count_eq_one_of_mem hnodup (List.mem_map_of_mem _ hr)
    · -- existing standard-header ledger
      obtain ⟨s1, hrun, hh1, f1, f2, f3, f4, f5, hag⟩ :=
        importar_feliz df s (cabecalhoHistorico :: corpo) hfo hfr hfw hmr hmw (Or.inl hh) hne
      have hex0 := ledgerHashes_cabecalho s corpo hh
      have hh1' : s1.hist = some (cabecalhoHistorico :: (corpo ++
          (sobreviventes df (ledgerHashes s)).map (linhaHistorico s.agora))) := by
        rw [hh1, List.cons_append]
      have hex1 : ledgerHashes s1 =
          ledgerHashes s ++
            (sobreviventes df (ledgerHashes s)).map gerar_hash_transacao := by
        rw [ledgerHashes_cabecalho s1 _ hh1', List.map_append, List.filter_append,
          map_linhaHistorico_getD, filter_hash_all, ← hex0]
      have hmemall : ∀ r ∈ df, gerar_hash_transacao r ∈ ledgerHashes s1 := by
        intro r hr
        rw [hex1]
        by_cases hm : gerar_hash_transacao r ∈ ledgerHashes s
        · exact List.mem_append_left _ hm
        · exact List.mem_append_right _
            (List.mem_map_of_mem _ (mem_sobreviventes.mpr ⟨hr, hm⟩))
      have hemp1 : (sobreviventes df (ledgerHashes s1)).isEmpty = true :=
        List.isEmpty_iff.mpr (sobreviventes_eq_nil hmemall)
      refine ⟨_, s1, hrun, (importar_nada df s1 f1 f2 hemp1).1 _ hh1', ?_⟩
      intro r hr
      rw [hex1, List.count_append]
      by_cases hm : gerar_hash_transacao r ∈ ledgerHashes s
      · have c1 : (ledgerHashes s).count (gerar_hash_transacao r) = 1 :=
          List.count_eq_one_of_mem hledger hm
        have c2 : ((sobreviventes df (ledgerHashes s)).map
            gerar_hash_transacao).count (gerar_hash_transacao r) = 0 := by
          apply List.count_eq_zero.mpr
          intro hmem
          obtain ⟨r', hr', he⟩ := List.mem_map.mp hmem
          exact (mem_sobreviventes.mp hr').2 (by rw [he]; exact hm)
        omega
      · have c1 : (ledgerHashes s).count (gerar_hash_transacao r) = 0 :=
          List.count_eq_zero_of_not_mem hm
        have hrn : r ∈ sobreviventes df (ledgerHashes s) := mem_sobreviventes.mpr ⟨hr, hm⟩
        have c2 : ((sobreviventes df (ledgerHashes s)).map
            gerar_hash_transacao).count (gerar_hash_transacao r) = 1 := by
          have hsub : List.Sublist
              ((sobreviventes df (ledgerHashes s)).map gerar_hash_transacao)
              (df.map gerar_hash_transacao) := (List.filter_sublist df).map _
          have hle := hsub.count_le (gerar_hash_transacao r)
          have hone := List.count_eq_one_of_mem hnodup (List.mem_map_of_mem _ hr)
          have hpos : 0 < ((sobreviventes df (ledgerHashes s)).map
              gerar_hash_transacao).count (gerar_hash_transacao r) :=
            List.count_pos_iff.mpr (List.mem_map_of_mem _ hrn)
          omega
        omega

/-- **C1** witness: concrete instance with one fresh record over a
header-only ledger. -/
theorem importar_idempotente_wit :
    ∃ r1 s1, importar_transacoes
        [{ Data := "03/01/2024", Descricao := "padaria centro", Valor := -850 }]
        { estadoBase with hist := some [cabecalhoHistorico] } = .ok r1 s1 ∧
      importar_transacoes
        [{ Data := "03/01/2024", Descricao := "padaria centro", Valor := -850 }] s1 =
        .ok .nenhumaNova s1 ∧
      ∀ r ∈ [{ Data := "03/01/2024", Descricao := "padaria centro", Valor := -850 }],
        (ledgerHashes s1).count (gerar_hash_transacao r) = 1 :=
  importar_idempotente _ { estadoBase with hist := some [cabecalhoHistorico] } []
    rfl rfl rfl rfl rfl (Or.inr rfl) (by decide) (by decide)

/-- **C1** counterexample to the claim as stated: a batch containing the
same record twice is appended twice — after importing it (twice), the
ledger lists that unique hash twice, not once. -/
theorem importar_idempotente_contra :
    (ledgerHashes (estadoFinal (importar_transacoes
        [{ Data := "05/01/2024", Descricao := "UBER *TRIP", Valor := -2350 },
         { Data := "05/01/2024", Descricao := "UBER *TRIP", Valor := -2350 }]
        (estadoFinal (importar_transacoes
          [{ Data := "05/01/2024", Descricao := "UBER *TRIP", Valor := -2350 },
           { Data := "05/01/2024", Descricao := "UBER *TRIP", Valor := -2350 }]
          { estadoBase with hist := some [cabecalhoHistorico] }))))).count
      (gerar_hash_transacao
        { Data := "05/01/2024", Descricao := "UBER *TRIP", Valor := -2350 }) = 2 := by
  decide

end FinancasBob
